import Mathlib

/-!
# StreamingSession OpenXR sample — shallow embedding

A shallow embedding of the StreamingSession-OpenXRSample sources
(`MessageChannel.cpp`, `main.cpp`) sufficient to settle the frozen claims
about the opaque data channel, the host cadence loop, the per-frame
swapchain protocol and the command-line configuration.

Stateful C++ is modelled as explicit state passing: each operation is a
pure function from the visible shared state (and the environment inputs
it reads, such as runtime poll results) to the successor state together
with a trace of observable events (atomic flag stores, thread joins,
runtime entrypoint invocations).  Machine integers that matter are `Nat`.
-/

namespace StreamingSession

/-- Status values of `XrOpaqueDataChannelStatusNV` observed from
`xrGetOpaqueDataChannelStateNV` (plus a catch-all for values outside the
enum, which the source handles in `default:` branches). -/
inductive ChannelStatus where
  | connectingSt
  | connectedSt
  | disconnectedSt
  | otherSt (code : Nat)
deriving DecidableEq, Repr

/-- Result of one call to `ext_xrGetOpaqueDataChannelStateNV`: either a
non-`XR_SUCCESS` `XrResult` (the source then aborts the surrounding loop)
or `XR_SUCCESS` together with the reported status. -/
inductive PollResult where
  | err (code : Int)
  | ok (s : ChannelStatus)
deriving DecidableEq, Repr

/-- Observable events of the channel subsystem: atomic flag stores, thread
spawns/joins, and invocations of the runtime entrypoints.
`sendCall` marks entry into `opaque_channel_send_data`; `rtSend` marks the
actual `ext_xrSendOpaqueDataChannelNV` invocation inside it. -/
inductive Event where
  | storeConnecting (b : Bool)
  | storeRunning (b : Bool)
  | storeConnected (b : Bool)
  | spawnReceive
  | joinConnect
  | joinReceive
  | sendCall (payload : List Nat)
  | rtSend (payload : List Nat)
  | rtReceive
  | rtGetState
  | rtShutdown
  | rtDestroy
  | nullifyHandle
  | deliver (bytes : Nat)
deriving DecidableEq, Repr

/-- Which of the six `xrGetInstanceProcAddr`-resolved opaque-data-channel
entrypoints are non-null (each pointer is resolved independently in
`openxr_init` and is thereafter read-only). -/
structure ExtTable where
  createResolved : Bool
  destroyResolved : Bool
  getStateResolved : Bool
  shutdownResolved : Bool
  sendResolved : Bool
  receiveResolved : Bool
deriving DecidableEq, Repr

/-- The channel's shared mutable state: `xr_opaque_channel` (a handle,
`none` = `XR_NULL_HANDLE`), the three atomic flags, and whether the two
`std::thread` objects are joinable (i.e. were started and not yet
joined). -/
structure ChannelState where
  handle : Option Nat
  running : Bool
  connected : Bool
  connecting : Bool
  connJoinable : Bool
  recvJoinable : Bool
deriving DecidableEq, Repr

/-- The process-initial channel state: null handle, all flags false, no
threads started. -/
def initialChannelState : ChannelState :=
  { handle := none, running := false, connected := false,
    connecting := false, connJoinable := false, recvJoinable := false }

/-- Model of `opaque_channel_send_data(data, size)`: returns `false` immediately
when `ext_xrSendOpaqueDataChannelNV` is unresolved or the handle is
`XR_NULL_HANDLE`; otherwise invokes the runtime send once and returns
whether it reported `XR_SUCCESS` (`0`).  The shared state is untouched.
The `sendCall` event records entry into the function, `rtSend` the runtime
invocation. -/
def opaque_channel_send_data (ext : ExtTable) (st : ChannelState)
    (data : List Nat) (rtResult : Int) : Bool × List Event :=
  if ext.sendResolved = false ∨ st.handle = none then
    (false, [Event.sendCall data])
  else
    (rtResult = 0, [Event.sendCall data, Event.rtSend data])

/-- Model of `opaque_channel_shutdown()`, step by step in source order:
stores `false` to `connecting`, then `false` to `running`; joins the
connection thread, then the receive thread, each when joinable (a joined
thread is no longer joinable); invokes `ext_xrShutdownOpaqueDataChannelNV`
when the handle is non-null and that entrypoint is resolved; invokes
`ext_xrDestroyOpaqueDataChannelNV` and then nulls the handle when the
handle is non-null and that entrypoint is resolved.  Each guard is written
as the value the source reads at that point: the flag stores and joins do
not change `handle`, `connJoinable` is read before the connect join,
`recvJoinable` before the receive join, so every guard equals the
corresponding field of the entry state `st`.  The returned state is the
function's net effect field by field; the trace lists the steps in
execution order. -/
def opaque_channel_shutdown (ext : ExtTable) (st : ChannelState) :
    ChannelState × List Event :=
  ({ handle :=
       if st.handle.isSome = true ∧ ext.destroyResolved = true then none else st.handle,
     running := false, connected := st.connected, connecting := false,
     connJoinable := false, recvJoinable := false },
   [Event.storeConnecting false, Event.storeRunning false]
     ++ (if st.connJoinable = true then [Event.joinConnect] else [])
     ++ (if st.recvJoinable = true then [Event.joinReceive] else [])
     ++ (if st.handle.isSome = true ∧ ext.shutdownResolved = true
         then [Event.rtShutdown] else [])
     ++ (if st.handle.isSome = true ∧ ext.destroyResolved = true
         then [Event.rtDestroy, Event.nullifyHandle] else []))

/-- The five handshake bytes `{ 0x01, 0x02, 0x03, 0x04, 0x05 }` sent on the
`CONNECTED` branch of `opaque_channel_connect_async`. -/
def handshakeBytes : List Nat := [1, 2, 3, 4, 5]

/-- One loop-head observation of the async connect loop: the value the
iteration reads from the atomic `xr_opaque_connecting` (which shutdown or
the host may have cleared concurrently), and the result of this
iteration's status poll. -/
structure ConnIter where
  connectingFlag : Bool
  poll : PollResult
deriving DecidableEq, Repr

/-- How a run of the async connect loop ended. -/
inductive ConnOutcome where
  /-- Returned from inside the `CONNECTED` case (line `return;`). -/
  | connectedExit
  /-- Fell out of the `while` (flag observed false, or a failed status
  poll `break`): the source then stores `false` to `connecting`. -/
  | loopExit
  /-- The supplied schedule ended with the loop still live: the task has
  not exited within that many iterations. -/
  | stillLooping
deriving DecidableEq, Repr

/-- The `while (xr_opaque_connecting && !xr_opaque_connected)` loop of
`opaque_channel_connect_async`, driven by a finite schedule of loop-head
observations.  `connected` starts false and is stored only by this task's
`CONNECTED` branch, which returns at once, so the `!connected` conjunct is
true at every modelled loop head.  Each iteration: read `connecting`
(exit the loop when false); poll the status (a non-success result breaks
out of the loop); on `CONNECTED` store `connected := true`,
`running := true`, spawn the receive thread, call
`opaque_channel_send_data` on the handshake bytes, and return; on
`DISCONNECTED`, `CONNECTING` or any other status merely sleep ~100 ms and
continue.  The source computes `startTime` and `timeoutMs = 30000` before
the loop but never tests them, so no iteration checks elapsed time. -/
def connect_async_loop (ext : ExtTable) (st : ChannelState) (rtSendResult : Int) :
    List ConnIter → List Event × ConnOutcome
  | [] => ([], ConnOutcome.stillLooping)
  | it :: rest =>
    if it.connectingFlag = false then
      ([Event.storeConnecting false], ConnOutcome.loopExit)
    else
      match it.poll with
      | PollResult.err _ => ([Event.storeConnecting false], ConnOutcome.loopExit)
      | PollResult.ok ChannelStatus.connectedSt =>
          ([Event.rtGetState, Event.storeConnected true, Event.storeRunning true,
            Event.spawnReceive]
            ++ (opaque_channel_send_data ext st handshakeBytes rtSendResult).2,
           ConnOutcome.connectedExit)
      | PollResult.ok _ =>
          (Event.rtGetState :: (connect_async_loop ext st rtSendResult rest).1,
           (connect_async_loop ext st rtSendResult rest).2)

/-- Model of `opaque_channel_connect_async()`: stores `true` to `connecting` and
enters the poll loop. -/
def opaque_channel_connect_async (ext : ExtTable) (st : ChannelState)
    (rtSendResult : Int) (iters : List ConnIter) : List Event × ConnOutcome :=
  let (evs, out) := connect_async_loop ext st rtSendResult iters
  (Event.storeConnecting true :: evs, out)

/-- One iteration of `opaque_channel_wait_connection`'s loop: the status
poll result and the elapsed milliseconds measured at this iteration's
timeout check. -/
structure WaitIter where
  poll : PollResult
  elapsedMs : Nat
deriving DecidableEq, Repr

/-- How `opaque_channel_wait_connection` ended on a finite schedule. -/
inductive WaitOutcome where
  | returned (value : Bool)
  | stillLooping
deriving DecidableEq, Repr

/-- Model of `opaque_channel_wait_connection()` (the blocking sibling, not wired
into `main`): polls the status; a failed poll returns `false`;
`CONNECTED` returns `true`; `DISCONNECTED` returns `false`; on
`CONNECTING` or any other status it falls through to the timeout check and
returns `false` when more than `30000` ms have elapsed, otherwise sleeps
~100 ms and continues.  Unlike the async variant, the timeout is actually
tested each iteration. -/
def opaque_channel_wait_connection : List WaitIter → WaitOutcome
  | [] => WaitOutcome.stillLooping
  | it :: rest =>
    match it.poll with
    | PollResult.err _ => WaitOutcome.returned false
    | PollResult.ok ChannelStatus.connectedSt => WaitOutcome.returned true
    | PollResult.ok ChannelStatus.disconnectedSt => WaitOutcome.returned false
    | PollResult.ok _ =>
        if 30000 < it.elapsedMs then WaitOutcome.returned false
        else opaque_channel_wait_connection rest

/-- One iteration's observations in `opaque_channel_receive_loop`: the
loop-head value of the atomic `xr_opaque_running`, whether
`ext_xrReceiveOpaqueDataChannelNV` returned `XR_SUCCESS`, how many bytes
it produced, and the channel status read by the mid-iteration state
check. -/
structure RecvIter where
  runningFlag : Bool
  recvOk : Bool
  bytes : Nat
  status : ChannelStatus
deriving DecidableEq, Repr

/-- How a run of the receive loop ended. -/
inductive RecvOutcome where
  /-- Loop-head `xr_opaque_running` read false. -/
  | stoppedByFlag
  /-- The mid-iteration state check saw `DISCONNECTED` and executed
  `break`. -/
  | disconnectBreak
  /-- Schedule exhausted with the loop still live. -/
  | stillLooping
deriving DecidableEq, Repr

/-- Model of `opaque_channel_receive_loop()`: while `xr_opaque_running`, poll for a
payload into the 4096-byte buffer (delivering/logging the first bytes when
one arrived), then read the channel state (result ignored) and `break`
when it is `DISCONNECTED`, else sleep ~1 ms and continue.  The loop writes
no atomic flag on any path. -/
def opaque_channel_receive_loop : List RecvIter → List Event × RecvOutcome
  | [] => ([], RecvOutcome.stillLooping)
  | it :: rest =>
    if it.runningFlag = false then ([], RecvOutcome.stoppedByFlag)
    else
      let evs : List Event :=
        [Event.rtReceive]
          ++ (if it.recvOk ∧ 0 < it.bytes then [Event.deliver it.bytes] else [])
          ++ [Event.rtGetState]
      if it.status = ChannelStatus.disconnectedSt then
        (evs, RecvOutcome.disconnectBreak)
      else
        (evs ++ (opaque_channel_receive_loop rest).1,
         (opaque_channel_receive_loop rest).2)

/-- Effect of one observable event on the shared channel state (the flag
stores, the receive-thread spawn, and the handle nulling; runtime
invocations and deliveries do not touch the shared state). -/
def applyEvent (st : ChannelState) : Event → ChannelState
  | Event.storeConnecting b => { st with connecting := b }
  | Event.storeRunning b => { st with running := b }
  | Event.storeConnected b => { st with connected := b }
  | Event.spawnReceive => { st with recvJoinable := true }
  | Event.nullifyHandle => { st with handle := none }
  | _ => st

/-- Fold `applyEvent` over a trace. -/
def applyEvents (st : ChannelState) (evs : List Event) : ChannelState :=
  evs.foldl applyEvent st

/-- Whether an event is a store to one of the three atomic flags. -/
def isFlagStore : Event → Bool
  | Event.storeConnecting _ => true
  | Event.storeRunning _ => true
  | Event.storeConnected _ => true
  | _ => false

/-- Whether an event is a store of `false` to `connected`. -/
def isConnectedFalseStore : Event → Bool
  | Event.storeConnected b => !b
  | _ => false

/-! ## Host cadence loop (`wWinMain`, main.cpp) -/

/-- ASCII digits of `n` in decimal, as produced by `sprintf_s` with
`"%d"`. -/
def decimalAscii (n : Nat) : List Nat :=
  (Nat.toDigits 10 n).map Char.toNat

/-- The bytes actually transmitted for cadence message number `n`:
`sprintf_s(message, "Message #%d: OpenXR application data", n)` followed by
`opaque_channel_send_data(message, strlen(message) + 1)` — the text plus
its trailing NUL. -/
def cadenceMessage (n : Nat) : List Nat :=
  ("Message #".toList.map Char.toNat) ++ decimalAscii n
    ++ (": OpenXR application data".toList.map Char.toNat) ++ [0]

/-- The host loop's two static counters (`frame_counter`,
`message_number`), both starting at 0. -/
structure HostState where
  frameCounter : Nat
  messageNumber : Nat
deriving DecidableEq, Repr

/-- The cadence tail of one `xr_running` iteration of the host loop:
`frame_counter++`; then
`if (xr_opaque_connected && frame_counter >= 90)` call
`opaque_channel_send_data` on the cadence message and `message_number++`.
`frame_counter` is incremented unconditionally and never reset. -/
def host_tick (ext : ExtTable) (ch : ChannelState) (rtResult : Int)
    (connectedFlag : Bool) (h : HostState) : HostState × List Event :=
  let fc := h.frameCounter + 1
  if connectedFlag = true ∧ 90 ≤ fc then
    ({ frameCounter := fc, messageNumber := h.messageNumber + 1 },
     (opaque_channel_send_data ext ch (cadenceMessage h.messageNumber) rtResult).2)
  else
    ({ h with frameCounter := fc }, [])

/-- Run of `frames` consecutive `xr_running` host iterations with
`xr_opaque_connected` observed `true` throughout, started from counters
`(0, 0)`, against a fixed channel state and runtime send result. -/
def host_run (ext : ExtTable) (ch : ChannelState) (rtResult : Int) :
    Nat → HostState × List Event
  | 0 => ({ frameCounter := 0, messageNumber := 0 }, [])
  | frames + 1 =>
    ((host_tick ext ch rtResult true (host_run ext ch rtResult frames).1).1,
     (host_run ext ch rtResult frames).2
       ++ (host_tick ext ch rtResult true (host_run ext ch rtResult frames).1).2)

/-- An `ExtTable` with all six entrypoints resolved (the situation after a
successful `openxr_init` against a runtime exposing the extension). -/
def extAll : ExtTable :=
  { createResolved := true, destroyResolved := true, getStateResolved := true,
    shutdownResolved := true, sendResolved := true, receiveResolved := true }

/-- An `ExtTable` with no entrypoint resolved (extension absent). -/
def extNone : ExtTable :=
  { createResolved := false, destroyResolved := false, getStateResolved := false,
    shutdownResolved := false, sendResolved := false, receiveResolved := false }

/-- A channel state whose handle is live (the channel was created). -/
def chWithHandle : ChannelState := { initialChannelState with handle := some 1 }

/-- Number of runtime send invocations in a trace. -/
def rtSendCount (evs : List Event) : Nat :=
  (evs.filter (fun e => match e with | Event.rtSend _ => true | _ => false)).length

/-- Number of occurrences of the `opaque_channel_send_data` call on
payload `p` in a trace. -/
def sendCallCount (p : List Nat) (evs : List Event) : Nat :=
  (evs.filter (fun e => e = Event.sendCall p)).length

/-- Number of cadence payload transmissions (runtime send invocations)
after `frames` host iterations with `connected` true throughout, send
entrypoint resolved and the handle non-null. -/
def hostPayloadCount (frames : Nat) : Nat :=
  rtSendCount (host_run extAll chWithHandle 0 frames).2

/-! ## Per-frame swapchain protocol (`openxr_render_layer`, main.cpp) -/

/-- Observable per-frame swapchain/render events, indexed by view. -/
inductive FrameEvent where
  | acquire (view : Nat)
  | waitImage (view : Nat) (infiniteTimeout : Bool)
  | renderView (view : Nat)
  | release (view : Nat)
deriving DecidableEq, Repr

/-- The view index an event concerns. -/
def FrameEvent.viewOf : FrameEvent → Nat
  | FrameEvent.acquire i => i
  | FrameEvent.waitImage i _ => i
  | FrameEvent.renderView i => i
  | FrameEvent.release i => i

/-- The loop body of `openxr_render_layer` for view `i`:
`xrAcquireSwapchainImage`, `xrWaitSwapchainImage` with
`XR_INFINITE_DURATION`, `d3d_render_layer`, `xrReleaseSwapchainImage` —
straight-line, no early exit. -/
def viewBlock (i : Nat) : List FrameEvent :=
  [FrameEvent.acquire i, FrameEvent.waitImage i true,
   FrameEvent.renderView i, FrameEvent.release i]

/-- The swapchain event trace of `openxr_render_layer` over `n` views
(the `for (uint32_t i = 0; i < view_count; i++)` loop). -/
def openxr_render_layer_trace : Nat → List FrameEvent
  | 0 => []
  | n + 1 => openxr_render_layer_trace n ++ viewBlock n

/-- The swapchain event trace of one `openxr_render_frame`: the layer is
rendered only when the session state is `VISIBLE` or `FOCUSED`
(`session_active`); otherwise zero layers are submitted and no swapchain
image is touched. -/
def openxr_render_frame_trace (sessionActive : Bool) (viewCount : Nat) :
    List FrameEvent :=
  if sessionActive then openxr_render_layer_trace viewCount else []

/-- Occurrences of event `e` in a frame trace. -/
def frameEventCount (e : FrameEvent) (tr : List FrameEvent) : Nat :=
  tr.count e

/-! ## Command-line configuration (`wWinMain` / `openxr_init`, main.cpp) -/

/-- Form-factor (`XrFormFactor`) values the sample selects between. -/
inductive FormFactor where
  | headMountedDisplay
  | handheldDisplay
deriving DecidableEq, Repr

/-- View-configuration (`XrViewConfigurationType`) values the sample selects between. -/
inductive ViewConfig where
  | primaryStereo
  | primaryMono
deriving DecidableEq, Repr

/-- Does `hay` start with `needle`?  (Helper for the `wcsstr` model.) -/
def listStartsWith : List Char → List Char → Bool
  | [], _ => true
  | _ :: _, [] => false
  | a :: as, b :: bs => a = b && listStartsWith as bs

/-- Model of `wcsstr(hay, needle) != nullptr`: `needle` occurs as a contiguous
substring of `hay`. -/
def listHasSubstr (needle : List Char) : List Char → Bool
  | [] => needle.isEmpty
  | b :: bs => listStartsWith needle (b :: bs) || listHasSubstr needle bs

/-- The characters of the recognised flag `-iOS`. -/
def iosFlagChars : List Char := "-iOS".toList

/-- The argument check in `wWinMain`:
`cmdLine && wcsstr(cmdLine, L"-iOS")` — a substring search over the whole
command line, not a per-token comparison. -/
def cmdHasIosFlag (cmdLine : List Char) : Bool :=
  listHasSubstr iosFlagChars cmdLine

/-- Value of `app_config_form` after argument parsing. -/
def app_config_form (cmdLine : List Char) : FormFactor :=
  if cmdHasIosFlag cmdLine then FormFactor.handheldDisplay
  else FormFactor.headMountedDisplay

/-- Value of `app_config_view` after argument parsing. -/
def app_config_view (cmdLine : List Char) : ViewConfig :=
  if cmdHasIosFlag cmdLine then ViewConfig.primaryMono
  else ViewConfig.primaryStereo

/-- Command-line tokens: the maximal space-free chunks of the command
line (the usual reading of "flags" on a command line, used to state what
the claim means by the flag being present or absent). -/
def splitArgs (cmdLine : List Char) : List (List Char) :=
  ((cmdLine.splitOn ' ').filter (fun t => ¬ t.isEmpty))

/-- Modelled from the spec: the number of views the runtime's
`xrEnumerateViewConfigurationViews` reports for each primary view
configuration (the glossary fixes mono = 1 view, stereo = 2 views); the
actual count lives in the external XR runtime, not in this repository. -/
def specViewCount : ViewConfig → Nat
  | ViewConfig.primaryStereo => 2
  | ViewConfig.primaryMono => 1

/-- Swapchain creation: `openxr_init` creates exactly one swapchain per enumerated
configuration view (`xr_swapchains.push_back` once per loop iteration). -/
def swapchainsCreated (viewCount : Nat) : Nat := viewCount

/-- Projection views: `openxr_render_layer` resizes `views` to the located view count and
fills one `XrCompositionLayerProjectionView` per view. -/
def projectionViewsPerFrame (viewCount : Nat) : Nat := viewCount

/-! ## Concrete states and claim-statement helpers -/

/-- An `ExtTable` where everything but the destroy entrypoint resolved. -/
def extNoDestroy : ExtTable := { extAll with destroyResolved := false }

/-- A state with a live (non-null) channel handle and no task started. -/
def stLiveHandle : ChannelState := { initialChannelState with handle := some 5 }

/-- The state right after `wWinMain` created the channel and spawned the
connection thread (main.cpp lines 302-304). -/
def chReady : ChannelState :=
  { initialChannelState with handle := some 1, connJoinable := true }

/-- The channel state after the connect task, started from `chReady`,
observed `CONNECTED` on its first poll: replay the connect trace onto the
shared state. -/
def stConnected : ChannelState :=
  applyEvents chReady
    (opaque_channel_connect_async extAll chReady 0
      [⟨true, PollResult.ok ChannelStatus.connectedSt⟩]).1

/-- A receive-loop schedule for a mid-session disconnect: one iteration
with `running` observed true, no payload, and the state check reporting
`DISCONNECTED`. -/
def midDisconnectIters : List RecvIter :=
  [⟨true, false, 0, ChannelStatus.disconnectedSt⟩]

/-- The channel state after the mid-session disconnect: the receive-loop
trace of `midDisconnectIters` replayed onto `stConnected`. -/
def stAfterDisconnect : ChannelState :=
  applyEvents stConnected (opaque_channel_receive_loop midDisconnectIters).1

/-- The seven shutdown steps in the order the claim lists them; the
shutdown trace must be a sublist of this list. -/
def shutdownStepOrder : List Event :=
  [Event.storeConnecting false, Event.storeRunning false, Event.joinConnect,
   Event.joinReceive, Event.rtShutdown, Event.rtDestroy, Event.nullifyHandle]

/-- The trace the claim asserts for every `opaque_channel_shutdown` call:
both flag clears, the joins whenever the corresponding task was started,
and always the runtime shutdown, the destroy and the nulling. -/
def shutdownClaimedTrace (st : ChannelState) : List Event :=
  [Event.storeConnecting false, Event.storeRunning false]
    ++ (if st.connJoinable then [Event.joinConnect] else [])
    ++ (if st.recvJoinable then [Event.joinReceive] else [])
    ++ [Event.rtShutdown, Event.rtDestroy, Event.nullifyHandle]

/-- A connect-loop iteration that neither exits nor connects: the
`connecting` flag reads true and the poll succeeds with a status other
than `CONNECTED` (the `DISCONNECTED` and `CONNECTING` cases of the
source's `switch` both just fall through to the sleep). -/
def ConnIter.keepsLooping (it : ConnIter) : Bool :=
  it.connectingFlag &&
    match it.poll with
    | PollResult.err _ => false
    | PollResult.ok ChannelStatus.connectedSt => false
    | PollResult.ok _ => true

/-- The loop-head observation when the poll reports `CONNECTING` and
nobody cleared the `connecting` flag. -/
def stillConnectingIter : ConnIter := ⟨true, PollResult.ok ChannelStatus.connectingSt⟩

/-- The loop-head observation when the poll reports `CONNECTED`. -/
def connectedIter : ConnIter := ⟨true, PollResult.ok ChannelStatus.connectedSt⟩

/-- A command line consisting of the single unknown flag `-iOSfoo`. -/
def cmdIosFoo : List Char := "-iOSfoo".toList

/-! ## Supporting lemmas -/

theorem host_tick_frameCounter (ext : ExtTable) (ch : ChannelState) (r : Int)
    (cf : Bool) (h : HostState) :
    (host_tick ext ch r cf h).1.frameCounter = h.frameCounter + 1 := by
  unfold host_tick
  dsimp only
  split <;> rfl

theorem host_run_frameCounter (ext : ExtTable) (ch : ChannelState) (r : Int) :
    ∀ F, (host_run ext ch r F).1.frameCounter = F := by
  intro F
  induction F with
  | zero => rfl
  | succ n ih =>
    show (host_tick ext ch r true (host_run ext ch r n).1).1.frameCounter = n + 1
    rw [host_tick_frameCounter, ih]

theorem send_data_resolved_events (data : List Nat) (rt : Int) :
    (opaque_channel_send_data extAll chWithHandle data rt).2
      = [Event.sendCall data, Event.rtSend data] := by
  simp [opaque_channel_send_data, extAll, chWithHandle, initialChannelState]

theorem rtSendCount_append (a b : List Event) :
    rtSendCount (a ++ b) = rtSendCount a + rtSendCount b := by
  simp [rtSendCount, List.filter_append]

theorem hostPayloadCount_succ (n : Nat) :
    hostPayloadCount (n + 1)
      = hostPayloadCount n + (if n + 1 < 90 then 0 else 1) := by
  have hfc : (host_run extAll chWithHandle 0 n).1.frameCounter = n :=
    host_run_frameCounter _ _ _ n
  show rtSendCount ((host_run extAll chWithHandle 0 n).2
      ++ (host_tick extAll chWithHandle 0 true (host_run extAll chWithHandle 0 n).1).2)
    = _
  rw [rtSendCount_append]
  unfold host_tick
  rw [hfc]
  by_cases h90 : 90 ≤ n + 1
  · rw [if_pos ⟨rfl, h90⟩, if_neg (by omega)]
    rw [send_data_resolved_events]
    rfl
  · rw [if_neg (by simp [h90]), if_pos (by omega)]
    rfl

theorem hostPayloadCount_closed (F : Nat) :
    hostPayloadCount F = if F < 90 then 0 else F - 89 := by
  induction F with
  | zero => rfl
  | succ n ih =>
    rw [hostPayloadCount_succ, ih]
    by_cases h1 : n + 1 < 90 <;> by_cases h2 : n < 90 <;>
      simp [h1, h2] <;> omega

theorem connect_loop_still (ext : ExtTable) (st : ChannelState) (r : Int) :
    ∀ n, connect_async_loop ext st r (List.replicate n stillConnectingIter)
      = (List.replicate n Event.rtGetState, ConnOutcome.stillLooping) := by
  intro n
  induction n with
  | zero => rfl
  | succ m ih =>
    rw [List.replicate_succ]
    show (Event.rtGetState
        :: (connect_async_loop ext st r (List.replicate m stillConnectingIter)).1,
      (connect_async_loop ext st r (List.replicate m stillConnectingIter)).2) = _
    rw [ih, List.replicate_succ]

/-! ## Claim theorems -/

/-- C1: the claim says the host emits exactly `⌊F/90⌋` throttled payloads
after `F` rendered connected frames, one every 90 frames.  The code
increments `frame_counter` every frame and never resets it, so once it
reaches 90 the `frame_counter >= 90` gate stays true and a payload is sent
on every subsequent frame: after 91 frames the code has sent 2 payloads
where the claim demands `⌊91/90⌋ = 1`, and after 180 frames it has sent 91
where the claim demands 2. -/
theorem c1_cadence_sends_every_frame_after_90 :
    hostPayloadCount 91 = 2 ∧ 91 / 90 = 1
      ∧ hostPayloadCount 180 = 91 ∧ 180 / 90 = 2 := by
  rw [hostPayloadCount_closed, hostPayloadCount_closed]
  norm_num

/-- C2: the claim says the async connect task exits unconditionally once
30 s elapse.  The code computes `startTime` and `timeoutMs = 30000` but
never tests them: with the status polling `CONNECTING` and nobody clearing
`connecting`, the loop is still running after `n` iterations for every
`n` — in particular long after 30 s (~100 ms of sleep per iteration) have
elapsed.  The blocking sibling `opaque_channel_wait_connection` does
implement the timeout and returns false once more than 30000 ms have
elapsed, which is what the claim describes. -/
theorem c2_connect_task_never_times_out :
    (∀ n : Nat,
      (opaque_channel_connect_async extAll chReady 0
        (List.replicate n stillConnectingIter)).2 = ConnOutcome.stillLooping)
    ∧ opaque_channel_wait_connection
        [⟨PollResult.ok ChannelStatus.connectingSt, 30050⟩]
        = WaitOutcome.returned false := by
  constructor
  · intro n
    show (connect_async_loop extAll chReady 0
        (List.replicate n stillConnectingIter)).2 = _
    rw [connect_loop_still]
  · decide

theorem send_data_no_flag_stores (ext : ExtTable) (st : ChannelState)
    (data : List Nat) (rt : Int) :
    ((opaque_channel_send_data ext st data rt).2.all
      (fun e => !isFlagStore e)) = true := by
  unfold opaque_channel_send_data
  split <;> rfl

theorem recv_loop_no_flag_stores (iters : List RecvIter) :
    ((opaque_channel_receive_loop iters).1.all (fun e => !isFlagStore e)) = true := by
  induction iters with
  | nil => rfl
  | cons it rest ih =>
    unfold opaque_channel_receive_loop
    dsimp only
    split
    · rfl
    · split
      · split <;> rfl
      · simp only [List.all_append, ih, Bool.and_true]
        split <;> rfl

theorem not_flag_store_not_connected_false (e : Event)
    (h : (!isFlagStore e) = true) : (!isConnectedFalseStore e) = true := by
  cases e <;> simp_all [isFlagStore, isConnectedFalseStore]

theorem all_not_cfalse_of_all_not_flag (evs : List Event)
    (h : (evs.all (fun e => !isFlagStore e)) = true) :
    (evs.all (fun e => !isConnectedFalseStore e)) = true := by
  rw [List.all_eq_true] at h ⊢
  exact fun e he => not_flag_store_not_connected_false e (h e he)

theorem connect_loop_no_connected_false (ext : ExtTable) (st : ChannelState)
    (r : Int) (iters : List ConnIter) :
    ((connect_async_loop ext st r iters).1.all
      (fun e => !isConnectedFalseStore e)) = true := by
  induction iters with
  | nil => rfl
  | cons it rest ih =>
    unfold connect_async_loop
    split
    · rfl
    · split
      · rfl
      · simp only [List.all_cons, List.all_append, Bool.and_true, Bool.true_and]
        exact all_not_cfalse_of_all_not_flag _
          (send_data_no_flag_stores ext st handshakeBytes r)
      · simp only [List.all_cons, ih, Bool.and_true]
        rfl

theorem shutdown_connected_unchanged (ext : ExtTable) (st : ChannelState) :
    (opaque_channel_shutdown ext st).1.connected = st.connected
      ∧ (opaque_channel_shutdown ext st).1.running = false
      ∧ (opaque_channel_shutdown ext st).1.connecting = false :=
  ⟨rfl, rfl, rfl⟩

theorem shutdown_no_connected_store (ext : ExtTable) (st : ChannelState) :
    ((opaque_channel_shutdown ext st).2.all
      (fun e => !isConnectedFalseStore e)) = true := by
  unfold opaque_channel_shutdown
  split <;> split <;> split <;> split <;> rfl

/-- C10: no modelled operation ever stores `false` to `connected`: the
connect task stores only `true` to it, the receive loop and the send path
store no flag at all, and shutdown clears `connecting` and `running` while
leaving `connected` unchanged; consequently the host's connected-gated
cadence block still calls `opaque_channel_send_data` whenever it observes
`connected` and `frame_counter` has reached 90, regardless of the
channel's `running` flag or handle. -/
theorem c10_connected_never_cleared :
    (∀ (ext : ExtTable) (st : ChannelState) (r : Int) (iters : List ConnIter),
      ((opaque_channel_connect_async ext st r iters).1.all
        (fun e => !isConnectedFalseStore e)) = true)
    ∧ (∀ iters,
        ((opaque_channel_receive_loop iters).1.all (fun e => !isFlagStore e)) = true)
    ∧ (∀ (ext : ExtTable) (st : ChannelState) (data : List Nat) (rt : Int),
        ((opaque_channel_send_data ext st data rt).2.all
          (fun e => !isFlagStore e)) = true)
    ∧ (∀ (ext : ExtTable) (st : ChannelState),
        (opaque_channel_shutdown ext st).1.connected = st.connected
        ∧ ((opaque_channel_shutdown ext st).2.all
            (fun e => !isConnectedFalseStore e)) = true)
    ∧ (∀ (ext : ExtTable) (ch : ChannelState) (r : Int) (h : HostState),
        90 ≤ h.frameCounter + 1 →
        Event.sendCall (cadenceMessage h.messageNumber)
          ∈ (host_tick ext ch r true h).2) := by
  refine ⟨?_, recv_loop_no_flag_stores, send_data_no_flag_stores, ?_, ?_⟩
  · intro ext st r iters
    simp only [opaque_channel_connect_async, List.all_cons, Bool.true_and]
    exact connect_loop_no_connected_false ext st r iters
  · intro ext st
    exact ⟨(shutdown_connected_unchanged ext st).1,
           shutdown_no_connected_store ext st⟩
  · intro ext ch r h h90
    unfold host_tick
    rw [if_pos ⟨rfl, h90⟩]
    unfold opaque_channel_send_data
    split <;> simp

/-- C10 witness: the host tick at frame counter 89 → 90 attempts a cadence
send even against a channel whose handle is already null and whose
entrypoints are unresolved. -/
theorem c10_connected_never_cleared_witness :
    Event.sendCall (cadenceMessage 0)
      ∈ (host_tick extNone initialChannelState 0 true ⟨89, 0⟩).2 :=
  c10_connected_never_cleared.2.2.2.2 extNone initialChannelState 0 ⟨89, 0⟩
    (by decide)

theorem connect_loop_connected (ext : ExtTable) (st : ChannelState) (r : Int)
    (pre rest : List ConnIter) :
    (∀ it ∈ pre, ConnIter.keepsLooping it = true) →
    connect_async_loop ext st r (pre ++ connectedIter :: rest)
      = ((pre.map (fun _ => Event.rtGetState))
          ++ ([Event.rtGetState, Event.storeConnected true, Event.storeRunning true,
               Event.spawnReceive]
              ++ (opaque_channel_send_data ext st handshakeBytes r).2),
         ConnOutcome.connectedExit) := by
  induction pre with
  | nil =>
    intro _
    simp only [List.nil_append, List.map_nil]
    rfl
  | cons it pre ih =>
    intro hpre
    have h1 : ConnIter.keepsLooping it = true := hpre it (List.mem_cons_self it pre)
    have h2 : ∀ x ∈ pre, ConnIter.keepsLooping x = true :=
      fun x hx => hpre x (List.mem_cons_of_mem it hx)
    obtain ⟨cf, p⟩ := it
    cases cf
    · exact absurd h1 (by simp [ConnIter.keepsLooping])
    · rcases p with code | s
      · exact absurd h1 (by simp [ConnIter.keepsLooping])
      · cases s with
        | connectedSt => exact absurd h1 (by simp [ConnIter.keepsLooping])
        | connectingSt =>
          show (Event.rtGetState
              :: (connect_async_loop ext st r (pre ++ connectedIter :: rest)).1,
            (connect_async_loop ext st r (pre ++ connectedIter :: rest)).2) = _
          rw [ih h2]
          simp
        | disconnectedSt =>
          show (Event.rtGetState
              :: (connect_async_loop ext st r (pre ++ connectedIter :: rest)).1,
            (connect_async_loop ext st r (pre ++ connectedIter :: rest)).2) = _
          rw [ih h2]
          simp
        | otherSt code =>
          show (Event.rtGetState
              :: (connect_async_loop ext st r (pre ++ connectedIter :: rest)).1,
            (connect_async_loop ext st r (pre ++ connectedIter :: rest)).2) = _
          rw [ih h2]
          simp

theorem applyEvents_append (st : ChannelState) (a b : List Event) :
    applyEvents st (a ++ b) = applyEvents (applyEvents st a) b := by
  simp [applyEvents, List.foldl_append]

theorem applyEvents_polls (st : ChannelState) (pre : List ConnIter) :
    applyEvents st (pre.map (fun _ => Event.rtGetState)) = st := by
  induction pre generalizing st with
  | nil => rfl
  | cons it pre ih => exact ih st

theorem applyEvents_send (ext : ExtTable) (st0 st : ChannelState)
    (data : List Nat) (rt : Int) :
    applyEvents st (opaque_channel_send_data ext st0 data rt).2 = st := by
  unfold opaque_channel_send_data
  split <;> rfl

/-- C3 counterexample: start from the state where the channel was created
and the connect thread spawned, let the connect task observe `CONNECTED`
(setting `connected` and `running`), then let the receive loop observe
`DISCONNECTED` and exit.  Contrary to the claim, `running` still reads
`true` after that exit, a further send succeeds (it is not rejected), and
the state reached by a subsequent shutdown has `connected = true` with
`running = false`, so `connected` and `running` are not equal in every
reachable state. -/
theorem c3_counterexample :
    (opaque_channel_receive_loop midDisconnectIters).2 = RecvOutcome.disconnectBreak
    ∧ stAfterDisconnect.running = true
    ∧ (opaque_channel_send_data extAll stAfterDisconnect [7] 0).1 = true
    ∧ (opaque_channel_shutdown extAll stConnected).1.connected = true
    ∧ (opaque_channel_shutdown extAll stConnected).1.running = false := by
  decide

/-- C3 amended: `connected` and `running` are set together — the connect
task's `CONNECTED` branch stores `true` to both — but they are not cleared
together: shutdown clears `connecting` and `running` and leaves
`connected` unchanged, and the receive loop's `DISCONNECTED` exit stores
no flag at all, so after a mid-session disconnect `running` remains `true`
and further sends are not rejected. -/
theorem c3_flags_amended :
    (∀ (ext : ExtTable) (st : ChannelState) (r : Int) (pre rest : List ConnIter),
      (∀ it ∈ pre, ConnIter.keepsLooping it = true) →
      (applyEvents st (opaque_channel_connect_async ext st r
          (pre ++ connectedIter :: rest)).1).connected = true
      ∧ (applyEvents st (opaque_channel_connect_async ext st r
          (pre ++ connectedIter :: rest)).1).running = true)
    ∧ (∀ (ext : ExtTable) (st : ChannelState),
        (opaque_channel_shutdown ext st).1.connecting = false
        ∧ (opaque_channel_shutdown ext st).1.running = false
        ∧ (opaque_channel_shutdown ext st).1.connected = st.connected)
    ∧ (∀ iters,
        ((opaque_channel_receive_loop iters).1.all (fun e => !isFlagStore e)) = true) := by
  refine ⟨?_, fun ext st => ⟨rfl, rfl, rfl⟩, recv_loop_no_flag_stores⟩
  intro ext st r pre rest hpre
  show (applyEvents st (Event.storeConnecting true
      :: (connect_async_loop ext st r (pre ++ connectedIter :: rest)).1)).connected = true
    ∧ (applyEvents st (Event.storeConnecting true
      :: (connect_async_loop ext st r (pre ++ connectedIter :: rest)).1)).running = true
  rw [connect_loop_connected ext st r pre rest hpre]
  show (applyEvents { st with connecting := true }
      ((pre.map (fun _ => Event.rtGetState))
        ++ ([Event.rtGetState, Event.storeConnected true, Event.storeRunning true,
             Event.spawnReceive]
            ++ (opaque_channel_send_data ext st handshakeBytes r).2))).connected = true
    ∧ (applyEvents { st with connecting := true }
      ((pre.map (fun _ => Event.rtGetState))
        ++ ([Event.rtGetState, Event.storeConnected true, Event.storeRunning true,
             Event.spawnReceive]
            ++ (opaque_channel_send_data ext st handshakeBytes r).2))).running = true
  rw [applyEvents_append, applyEvents_polls]
  show (applyEvents (applyEvents { st with connecting := true }
      [Event.rtGetState, Event.storeConnected true, Event.storeRunning true,
       Event.spawnReceive])
      (opaque_channel_send_data ext st handshakeBytes r).2).connected = true
    ∧ (applyEvents (applyEvents { st with connecting := true }
      [Event.rtGetState, Event.storeConnected true, Event.storeRunning true,
       Event.spawnReceive])
      (opaque_channel_send_data ext st handshakeBytes r).2).running = true
  rw [applyEvents_send]
  exact ⟨rfl, rfl⟩

/-- C3 witness for the amended statement: the connect task observing
`CONNECTED` on its first poll from the post-init state leaves both flags
true. -/
theorem c3_flags_amended_witness :
    (applyEvents chReady (opaque_channel_connect_async extAll chReady 0
        ([] ++ connectedIter :: [])).1).connected = true
    ∧ (applyEvents chReady (opaque_channel_connect_async extAll chReady 0
        ([] ++ connectedIter :: [])).1).running = true :=
  c3_flags_amended.1 extAll chReady 0 [] [] (by simp)

/-- C6: `opaque_channel_send_data` returns `false` without invoking the
runtime when the send entrypoint is unresolved or the handle is null;
otherwise it invokes the runtime send exactly once and returns `true` iff
the runtime reports `XR_SUCCESS`. -/
theorem c6_send_gate (ext : ExtTable) (st : ChannelState)
    (data : List Nat) (rt : Int) :
    ((ext.sendResolved = false ∨ st.handle = none) →
      (opaque_channel_send_data ext st data rt).1 = false
      ∧ (opaque_channel_send_data ext st data rt).2 = [Event.sendCall data])
    ∧ (ext.sendResolved = true → st.handle.isSome = true →
      (opaque_channel_send_data ext st data rt).2
          = [Event.sendCall data, Event.rtSend data]
      ∧ ((opaque_channel_send_data ext st data rt).1 = true ↔ rt = 0)) := by
  constructor
  · intro h
    unfold opaque_channel_send_data
    rw [if_pos h]
    exact ⟨rfl, rfl⟩
  · intro h1 h2
    unfold opaque_channel_send_data
    rw [if_neg (by simp [h1, Option.isSome_iff_ne_none.mp h2])]
    exact ⟨rfl, by simp⟩

/-- C6 witness: both branches exercised at concrete inputs — unresolved
entrypoints reject without a runtime event; a resolved entrypoint with a
live handle invokes the runtime once and succeeds on `XR_SUCCESS`. -/
theorem c6_send_gate_witness :
    ((opaque_channel_send_data extNone initialChannelState [9] 0).1 = false
      ∧ (opaque_channel_send_data extNone initialChannelState [9] 0).2
          = [Event.sendCall [9]])
    ∧ ((opaque_channel_send_data extAll stLiveHandle [9] 0).2
          = [Event.sendCall [9], Event.rtSend [9]]
      ∧ ((opaque_channel_send_data extAll stLiveHandle [9] 0).1 = true
          ↔ (0 : Int) = 0)) :=
  ⟨(c6_send_gate extNone initialChannelState [9] 0).1 (Or.inl rfl),
   (c6_send_gate extAll stLiveHandle [9] 0).2 rfl rfl⟩

/-- C7 counterexample: with a live handle but the destroy entrypoint
unresolved, shutdown leaves the handle non-null, and a second shutdown is
not a no-op — it invokes the runtime shutdown entrypoint again. -/
theorem c7_counterexample :
    (opaque_channel_shutdown extNoDestroy stLiveHandle).1.handle = some 5
    ∧ Event.rtShutdown ∈ (opaque_channel_shutdown extNoDestroy
        (opaque_channel_shutdown extNoDestroy stLiveHandle).1).2 := by
  decide

/-- C7 amended: provided the handle is already null or the destroy
entrypoint is resolved, the handle reads null after shutdown, and a second
shutdown invocation leaves the state unchanged and performs nothing beyond
the two redundant flag clears: no join and no runtime invocation. -/
theorem c7_handle_null_amended (ext : ExtTable) (st : ChannelState)
    (h : st.handle = none ∨ ext.destroyResolved = true) :
    (opaque_channel_shutdown ext st).1.handle = none
    ∧ opaque_channel_shutdown ext (opaque_channel_shutdown ext st).1
        = ((opaque_channel_shutdown ext st).1,
           [Event.storeConnecting false, Event.storeRunning false]) := by
  obtain ⟨hd, r, c, cg, cj, rj⟩ := st
  rcases h with h | h
  · dsimp only at h
    subst h
    simp [opaque_channel_shutdown]
  · obtain ⟨e1, e2, e3, e4, e5, e6⟩ := ext
    dsimp only at h
    subst h
    cases hd <;> simp [opaque_channel_shutdown]

/-- C7 witness for the amended statement: with every entrypoint resolved
and a live handle, shutdown nulls the handle and a second call is inert. -/
theorem c7_handle_null_amended_witness :
    (opaque_channel_shutdown extAll stLiveHandle).1.handle = none
    ∧ opaque_channel_shutdown extAll (opaque_channel_shutdown extAll stLiveHandle).1
        = ((opaque_channel_shutdown extAll stLiveHandle).1,
           [Event.storeConnecting false, Event.storeRunning false]) :=
  c7_handle_null_amended extAll stLiveHandle (Or.inr rfl)

/-- C4 counterexample: when the channel extension is absent the handle is
null and no entrypoint is resolved, yet `wWinMain` still calls
`opaque_channel_shutdown` on exit.  On that call the trace is only the two
flag clears — the runtime shutdown, the destroy and the nulling are all
skipped, so the trace is not the claimed full step list. -/
theorem c4_counterexample :
    (opaque_channel_shutdown extNone initialChannelState).2
        = [Event.storeConnecting false, Event.storeRunning false]
    ∧ (opaque_channel_shutdown extNone initialChannelState).2
        ≠ shutdownClaimedTrace initialChannelState
    ∧ Event.rtShutdown ∉ (opaque_channel_shutdown extNone initialChannelState).2 := by
  decide

/-- C4 amended: shutdown performs its steps in the claimed relative order
on every call — the trace is always a sublist of the full ordered step
list and always starts with the `connecting` clear followed by the
`running` clear; the joins occur exactly when the corresponding task was
started; but the runtime shutdown occurs only when the handle is non-null
and the shutdown entrypoint is resolved, and the destroy and the nulling
occur only when the handle is non-null and the destroy entrypoint is
resolved. -/
theorem c4_shutdown_order_amended (ext : ExtTable) (st : ChannelState) :
    ((opaque_channel_shutdown ext st).2).Sublist shutdownStepOrder
    ∧ ((opaque_channel_shutdown ext st).2).take 2
        = [Event.storeConnecting false, Event.storeRunning false]
    ∧ (Event.joinConnect ∈ (opaque_channel_shutdown ext st).2
        ↔ st.connJoinable = true)
    ∧ (Event.joinReceive ∈ (opaque_channel_shutdown ext st).2
        ↔ st.recvJoinable = true)
    ∧ (Event.rtShutdown ∈ (opaque_channel_shutdown ext st).2
        ↔ (st.handle.isSome = true ∧ ext.shutdownResolved = true))
    ∧ (Event.rtDestroy ∈ (opaque_channel_shutdown ext st).2
        ↔ (st.handle.isSome = true ∧ ext.destroyResolved = true))
    ∧ (Event.nullifyHandle ∈ (opaque_channel_shutdown ext st).2
        ↔ (st.handle.isSome = true ∧ ext.destroyResolved = true)) := by
  obtain ⟨hd, r, c, cg, cj, rj⟩ := st
  obtain ⟨e1, e2, e3, e4, e5, e6⟩ := ext
  cases hd <;> cases cj <;> cases rj <;> cases e4 <;> cases e2 <;>
    (simp [opaque_channel_shutdown, shutdownStepOrder]; try decide)

/-- C4 witness for the amended statement: a fully-live state (handle
non-null, both tasks started, all entrypoints resolved) walks every step
in order. -/
theorem c4_shutdown_order_amended_witness :
    ((opaque_channel_shutdown extAll
        ⟨some 1, true, true, true, true, true⟩).2).Sublist shutdownStepOrder
    ∧ (Event.joinConnect ∈ (opaque_channel_shutdown extAll
        ⟨some 1, true, true, true, true, true⟩).2
        ↔ (⟨some 1, true, true, true, true, true⟩ : ChannelState).connJoinable
            = true) :=
  have h := c4_shutdown_order_amended extAll ⟨some 1, true, true, true, true, true⟩
  ⟨h.1, h.2.2.1⟩

theorem viewOf_lt_of_mem (n : Nat) (e : FrameEvent)
    (he : e ∈ openxr_render_layer_trace n) : e.viewOf < n := by
  induction n with
  | zero => simp [openxr_render_layer_trace] at he
  | succ m ih =>
    unfold openxr_render_layer_trace at he
    rw [List.mem_append] at he
    rcases he with h | h
    · exact Nat.lt_succ_of_lt (ih h)
    · simp [viewBlock] at h
      rcases h with rfl | rfl | rfl | rfl <;> exact Nat.lt_succ_self m

theorem render_layer_decomp (n i : Nat) (h : i < n) :
    ∃ p s, openxr_render_layer_trace n = p ++ viewBlock i ++ s
      ∧ (∀ e ∈ p, FrameEvent.viewOf e ≠ i) ∧ (∀ e ∈ s, FrameEvent.viewOf e ≠ i) := by
  induction n with
  | zero => omega
  | succ m ih =>
    by_cases him : i = m
    · subst him
      refine ⟨openxr_render_layer_trace i, [], by simp [openxr_render_layer_trace],
        ?_, by simp⟩
      intro e he
      exact Nat.ne_of_lt (viewOf_lt_of_mem i e he)
    · obtain ⟨p, s, hps, hp, hs⟩ := ih (by omega)
      refine ⟨p, s ++ viewBlock m, ?_, hp, ?_⟩
      · show openxr_render_layer_trace m ++ viewBlock m = _
        rw [hps]
        simp [List.append_assoc]
      · intro e he
        rw [List.mem_append] at he
        rcases he with h1 | h1
        · exact hs e h1
        · simp [viewBlock] at h1
          rcases h1 with rfl | rfl | rfl | rfl <;> exact fun hh => him hh.symm

theorem count_block_acquire (i j : Nat) :
    frameEventCount (FrameEvent.acquire i) (viewBlock j) = if i = j then 1 else 0 := by
  by_cases h : i = j
  · subst h; simp [frameEventCount, viewBlock]
  · simp [frameEventCount, viewBlock, List.count_cons, h, Ne.symm h]

theorem count_block_wait (i j : Nat) :
    frameEventCount (FrameEvent.waitImage i true) (viewBlock j)
      = if i = j then 1 else 0 := by
  by_cases h : i = j
  · subst h; simp [frameEventCount, viewBlock]
  · simp [frameEventCount, viewBlock, List.count_cons, h, Ne.symm h]

theorem count_block_release (i j : Nat) :
    frameEventCount (FrameEvent.release i) (viewBlock j) = if i = j then 1 else 0 := by
  by_cases h : i = j
  · subst h; simp [frameEventCount, viewBlock]
  · simp [frameEventCount, viewBlock, List.count_cons, h, Ne.symm h]

theorem count_trace_acquire (n i : Nat) :
    frameEventCount (FrameEvent.acquire i) (openxr_render_layer_trace n)
      = if i < n then 1 else 0 := by
  induction n with
  | zero => simp [frameEventCount, openxr_render_layer_trace]
  | succ m ih =>
    show frameEventCount _ (openxr_render_layer_trace m ++ viewBlock m) = _
    have := count_block_acquire i m
    simp only [frameEventCount, List.count_append] at *
    rw [ih, this]
    split_ifs <;> omega

theorem count_trace_wait (n i : Nat) :
    frameEventCount (FrameEvent.waitImage i true) (openxr_render_layer_trace n)
      = if i < n then 1 else 0 := by
  induction n with
  | zero => simp [frameEventCount, openxr_render_layer_trace]
  | succ m ih =>
    show frameEventCount _ (openxr_render_layer_trace m ++ viewBlock m) = _
    have := count_block_wait i m
    simp only [frameEventCount, List.count_append] at *
    rw [ih, this]
    split_ifs <;> omega

theorem count_trace_release (n i : Nat) :
    frameEventCount (FrameEvent.release i) (openxr_render_layer_trace n)
      = if i < n then 1 else 0 := by
  induction n with
  | zero => simp [frameEventCount, openxr_render_layer_trace]
  | succ m ih =>
    show frameEventCount _ (openxr_render_layer_trace m ++ viewBlock m) = _
    have := count_block_release i m
    simp only [frameEventCount, List.count_append] at *
    rw [ih, this]
    split_ifs <;> omega

/-- C8: in every rendered frame (session visible or focused) and for every
view `i` of the view configuration, the frame step performs acquire, then
wait with infinite timeout, then render, then release on swapchain `i` as
one contiguous block — no other event of the frame touches view `i` — and
each of acquire, wait and release occurs exactly once per view, so
acquires and releases balance per view per frame. -/
theorem c8_acquire_wait_release (n i : Nat) (h : i < n) :
    (∃ p s, openxr_render_frame_trace true n = p ++ viewBlock i ++ s
      ∧ (∀ e ∈ p, FrameEvent.viewOf e ≠ i) ∧ (∀ e ∈ s, FrameEvent.viewOf e ≠ i))
    ∧ frameEventCount (FrameEvent.acquire i) (openxr_render_frame_trace true n) = 1
    ∧ frameEventCount (FrameEvent.waitImage i true)
        (openxr_render_frame_trace true n) = 1
    ∧ frameEventCount (FrameEvent.release i) (openxr_render_frame_trace true n) = 1
    ∧ frameEventCount (FrameEvent.acquire i) (openxr_render_frame_trace true n)
        = frameEventCount (FrameEvent.release i) (openxr_render_frame_trace true n) := by
  have ht : openxr_render_frame_trace true n = openxr_render_layer_trace n := rfl
  rw [ht]
  refine ⟨render_layer_decomp n i h, ?_, ?_, ?_, ?_⟩ <;>
    simp [count_trace_acquire, count_trace_wait, count_trace_release, h]

/-- C8 witness: the stereo frame (two views), view 0. -/
theorem c8_acquire_wait_release_witness :
    (∃ p s, openxr_render_frame_trace true 2 = p ++ viewBlock 0 ++ s
      ∧ (∀ e ∈ p, FrameEvent.viewOf e ≠ 0) ∧ (∀ e ∈ s, FrameEvent.viewOf e ≠ 0))
    ∧ frameEventCount (FrameEvent.acquire 0) (openxr_render_frame_trace true 2) = 1
    ∧ frameEventCount (FrameEvent.waitImage 0 true)
        (openxr_render_frame_trace true 2) = 1
    ∧ frameEventCount (FrameEvent.release 0) (openxr_render_frame_trace true 2) = 1
    ∧ frameEventCount (FrameEvent.acquire 0) (openxr_render_frame_trace true 2)
        = frameEventCount (FrameEvent.release 0) (openxr_render_frame_trace true 2) :=
  c8_acquire_wait_release 2 0 (by decide)

theorem sendCallCount_append (p : List Nat) (a b : List Event) :
    sendCallCount p (a ++ b) = sendCallCount p a + sendCallCount p b := by
  simp [sendCallCount, List.filter_append]

theorem sendCallCount_polls (p : List Nat) (pre : List ConnIter) :
    sendCallCount p (pre.map (fun _ => Event.rtGetState)) = 0 := by
  induction pre with
  | nil => rfl
  | cons it pre ih => simp [sendCallCount] at ih ⊢; try exact ih

theorem sendCallCount_send (ext : ExtTable) (st : ChannelState)
    (d : List Nat) (r : Int) :
    sendCallCount d (opaque_channel_send_data ext st d r).2 = 1 := by
  unfold opaque_channel_send_data
  split <;> simp [sendCallCount]

theorem connect_connected_state (ext : ExtTable) (st : ChannelState) (r : Int)
    (pre rest : List ConnIter)
    (hpre : ∀ it ∈ pre, ConnIter.keepsLooping it = true) :
    applyEvents st (opaque_channel_connect_async ext st r
        (pre ++ connectedIter :: rest)).1
      = { st with connecting := true, connected := true, running := true,
                  recvJoinable := true } := by
  show applyEvents st (Event.storeConnecting true
      :: (connect_async_loop ext st r (pre ++ connectedIter :: rest)).1) = _
  rw [connect_loop_connected ext st r pre rest hpre]
  show applyEvents { st with connecting := true }
      ((pre.map (fun _ => Event.rtGetState))
        ++ ([Event.rtGetState, Event.storeConnected true, Event.storeRunning true,
             Event.spawnReceive]
            ++ (opaque_channel_send_data ext st handshakeBytes r).2)) = _
  rw [applyEvents_append, applyEvents_polls]
  show applyEvents (applyEvents { st with connecting := true }
      [Event.rtGetState, Event.storeConnected true, Event.storeRunning true,
       Event.spawnReceive])
      (opaque_channel_send_data ext st handshakeBytes r).2 = _
  rw [applyEvents_send]
  rfl

/-- C5: whenever the connect task observes `CONNECTED` (after any number
of polls that kept it looping), it returns from inside the `CONNECTED`
case; its trace is exactly the entry `connecting := true` store, one
`xrGetOpaqueDataChannelStateNV` poll per iteration, the `connected` and
`running` stores, the receive-thread spawn, and the handshake send — with
`opaque_channel_send_data` called on the bytes `01 02 03 04 05` exactly
once — and replaying the trace on the shared state leaves `connected`,
`running` and the spawned receive thread set. -/
theorem c5_connected_branch (ext : ExtTable) (st : ChannelState) (r : Int)
    (pre rest : List ConnIter)
    (hpre : ∀ it ∈ pre, ConnIter.keepsLooping it = true) :
    (opaque_channel_connect_async ext st r (pre ++ connectedIter :: rest)).2
        = ConnOutcome.connectedExit
    ∧ (opaque_channel_connect_async ext st r (pre ++ connectedIter :: rest)).1
        = Event.storeConnecting true
            :: ((pre.map (fun _ => Event.rtGetState))
              ++ ([Event.rtGetState, Event.storeConnected true,
                   Event.storeRunning true, Event.spawnReceive]
                  ++ (opaque_channel_send_data ext st handshakeBytes r).2))
    ∧ sendCallCount handshakeBytes
        (opaque_channel_connect_async ext st r (pre ++ connectedIter :: rest)).1 = 1
    ∧ (applyEvents st (opaque_channel_connect_async ext st r
        (pre ++ connectedIter :: rest)).1).connected = true
    ∧ (applyEvents st (opaque_channel_connect_async ext st r
        (pre ++ connectedIter :: rest)).1).running = true
    ∧ (applyEvents st (opaque_channel_connect_async ext st r
        (pre ++ connectedIter :: rest)).1).recvJoinable = true := by
  have hloop := connect_loop_connected ext st r pre rest hpre
  have hstate := connect_connected_state ext st r pre rest hpre
  refine ⟨?_, ?_, ?_, ?_, ?_, ?_⟩
  · show (connect_async_loop ext st r (pre ++ connectedIter :: rest)).2 = _
    rw [hloop]
  · show Event.storeConnecting true
        :: (connect_async_loop ext st r (pre ++ connectedIter :: rest)).1 = _
    rw [hloop]
  · show sendCallCount handshakeBytes (Event.storeConnecting true
        :: (connect_async_loop ext st r (pre ++ connectedIter :: rest)).1) = 1
    rw [hloop]
    show sendCallCount handshakeBytes (Event.storeConnecting true
        :: ((pre.map (fun _ => Event.rtGetState))
          ++ ([Event.rtGetState, Event.storeConnected true,
               Event.storeRunning true, Event.spawnReceive]
              ++ (opaque_channel_send_data ext st handshakeBytes r).2))) = 1
    have h1 : sendCallCount handshakeBytes (Event.storeConnecting true
        :: ((pre.map (fun _ => Event.rtGetState))
          ++ ([Event.rtGetState, Event.storeConnected true,
               Event.storeRunning true, Event.spawnReceive]
              ++ (opaque_channel_send_data ext st handshakeBytes r).2)))
        = sendCallCount handshakeBytes ((pre.map (fun _ => Event.rtGetState))
          ++ ([Event.rtGetState, Event.storeConnected true,
               Event.storeRunning true, Event.spawnReceive]
              ++ (opaque_channel_send_data ext st handshakeBytes r).2)) := by
      simp [sendCallCount]
    rw [h1, sendCallCount_append, sendCallCount_polls, sendCallCount_append,
        sendCallCount_send]
    simp [sendCallCount]
  · rw [hstate]
  · rw [hstate]
  · rw [hstate]

/-- C5 witness: the spec's scenario — twelve `CONNECTING` polls, then
`CONNECTED` on the thirteenth. -/
theorem c5_connected_branch_witness :
    (opaque_channel_connect_async extAll chReady 0
        (List.replicate 12 stillConnectingIter ++ connectedIter :: [])).2
        = ConnOutcome.connectedExit
    ∧ sendCallCount handshakeBytes
        (opaque_channel_connect_async extAll chReady 0
          (List.replicate 12 stillConnectingIter ++ connectedIter :: [])).1 = 1
    ∧ (applyEvents chReady (opaque_channel_connect_async extAll chReady 0
        (List.replicate 12 stillConnectingIter ++ connectedIter :: [])).1).connected
        = true :=
  have h := c5_connected_branch extAll chReady 0
    (List.replicate 12 stillConnectingIter) [] (by decide)
  ⟨h.1, h.2.2.1, h.2.2.2.1⟩

theorem hasSubstr_nil_needle (h : List Char) : listHasSubstr [] h = true := by
  cases h <;> rfl

theorem startsWith_self_append (t rest : List Char) :
    listStartsWith t (t ++ rest) = true := by
  induction t with
  | nil => rfl
  | cons a as ih => simp [listStartsWith, ih]

theorem hasSubstr_decomp (pre t post : List Char) :
    listHasSubstr t (pre ++ (t ++ post)) = true := by
  induction pre with
  | nil =>
    cases t with
    | nil => exact hasSubstr_nil_needle _
    | cons a as =>
      show listHasSubstr (a :: as) (a :: (as ++ post)) = true
      have : listStartsWith (a :: as) (a :: (as ++ post)) = true :=
        startsWith_self_append (a :: as) post
      simp [listHasSubstr, this]
  | cons c pre ih =>
    show listHasSubstr t (c :: (pre ++ (t ++ post))) = true
    simp [listHasSubstr, ih]

theorem mem_intercalate_decomp (sep : List Char) (L : List (List Char))
    (t : List Char) (ht : t ∈ L) :
    ∃ pre post, List.intercalate sep L = pre ++ (t ++ post) := by
  induction L with
  | nil => simp at ht
  | cons a L ih =>
    rcases List.mem_cons.mp ht with rfl | hmem
    · cases L with
      | nil => exact ⟨[], [], by simp [List.intercalate]⟩
      | cons b L' =>
        refine ⟨[], sep ++ List.intercalate sep (b :: L'), ?_⟩
        rw [show List.intercalate sep (t :: b :: L')
            = t ++ sep ++ List.intercalate sep (b :: L') from by
          simp [List.intercalate]]
        simp [List.append_assoc]
    · cases L with
      | nil => simp at hmem
      | cons b L' =>
        obtain ⟨pre, post, hp⟩ := ih hmem
        refine ⟨a ++ sep ++ pre, post, ?_⟩
        rw [show List.intercalate sep (a :: b :: L')
            = a ++ sep ++ List.intercalate sep (b :: L') from by
          simp [List.intercalate]]
        rw [hp]
        simp [List.append_assoc]

theorem token_hasSubstr (t cmd : List Char) (h : t ∈ splitArgs cmd) :
    listHasSubstr t cmd = true := by
  have h2 : t ∈ cmd.splitOn ' ' := (List.mem_filter.mp h).1
  obtain ⟨pre, post, hp⟩ := mem_intercalate_decomp [' '] (cmd.splitOn ' ') t h2
  rw [List.intercalate_splitOn cmd ' '] at hp
  rw [hp]
  exact hasSubstr_decomp pre t post

/-- C9 counterexample: the command line `-iOSfoo` consists of one unknown
flag — `-iOS` is not among its space-separated tokens — yet because the
source tests `wcsstr(cmdLine, L"-iOS")`, a substring search, it selects
the handheld form factor and the mono view configuration instead of
ignoring the flag and selecting stereo. -/
theorem c9_counterexample :
    iosFlagChars ∉ splitArgs cmdIosFoo
    ∧ app_config_view cmdIosFoo = ViewConfig.primaryMono
    ∧ app_config_form cmdIosFoo = FormFactor.handheldDisplay := by
  decide

/-- C9 amended: the application selects handheld + mono exactly when the
command line contains `-iOS` as a substring (the `wcsstr` test) — so the
genuine `-iOS` flag (a whole token) selects handheld mono, absence of the
substring selects head-mounted stereo, and unknown flags are ignored
unless they contain `-iOS` as a substring; under the runtime's mono view
count of one, one swapchain is created and one projection view is
submitted per frame. -/
theorem c9_ios_flag_amended (cmd : List Char) :
    (app_config_form cmd = FormFactor.handheldDisplay ↔ cmdHasIosFlag cmd = true)
    ∧ (app_config_view cmd = ViewConfig.primaryMono ↔ cmdHasIosFlag cmd = true)
    ∧ (iosFlagChars ∈ splitArgs cmd → app_config_view cmd = ViewConfig.primaryMono
        ∧ app_config_form cmd = FormFactor.handheldDisplay)
    ∧ (cmdHasIosFlag cmd = false → app_config_view cmd = ViewConfig.primaryStereo
        ∧ app_config_form cmd = FormFactor.headMountedDisplay)
    ∧ specViewCount ViewConfig.primaryMono = 1
    ∧ specViewCount ViewConfig.primaryStereo = 2
    ∧ swapchainsCreated (specViewCount (app_config_view cmd))
        = specViewCount (app_config_view cmd)
    ∧ projectionViewsPerFrame (specViewCount (app_config_view cmd))
        = specViewCount (app_config_view cmd) := by
  refine ⟨?_, ?_, ?_, ?_, rfl, rfl, rfl, rfl⟩
  · by_cases hf : cmdHasIosFlag cmd = true <;>
      simp [app_config_form, hf]
  · by_cases hf : cmdHasIosFlag cmd = true <;>
      simp [app_config_view, hf]
  · intro hmem
    have hs : cmdHasIosFlag cmd = true := token_hasSubstr iosFlagChars cmd hmem
    exact ⟨by simp [app_config_view, hs], by simp [app_config_form, hs]⟩
  · intro hf
    exact ⟨by simp [app_config_view, hf], by simp [app_config_form, hf]⟩

/-- C9 witness for the amended statement: the genuine `-iOS` token selects
mono and handheld; the empty command line selects stereo. -/
theorem c9_ios_flag_amended_witness :
    (app_config_view "-iOS".toList = ViewConfig.primaryMono
      ∧ app_config_form "-iOS".toList = FormFactor.handheldDisplay)
    ∧ (app_config_view "".toList = ViewConfig.primaryStereo
      ∧ app_config_form "".toList = FormFactor.headMountedDisplay) :=
  ⟨(c9_ios_flag_amended "-iOS".toList).2.2.1 (by decide),
   (c9_ios_flag_amended "".toList).2.2.2.1 (by decide)⟩

end StreamingSession
